import Mathlib

/-!
Shallow embedding of the collection-and-scoring pipeline of
`src/main.py` (class `NodeJSFrameworkCollector`).

Modelling conventions:
* ISO-8601 timestamps are modelled as integers (epoch seconds); the code
  parses such strings with `datetime.fromisoformat` and only ever compares
  them, subtracts them (taking `.days`, i.e. floor division of the second
  difference by 86400) or stores them.  An absent / empty / unparseable
  timestamp is modelled as `none`.
* Python dicts whose concrete keys matter (the npm `time` map, the
  `versions` map) are modelled as association lists; dicts used as records
  are modelled as structures, with the `.get(key, default)` defaults folded
  into the field types (`Option` where the empty-string/None distinction is
  observable).
* Every network response is an explicit input (an environment value): a
  `none` response models a non-success HTTP status, timeout, transport
  error or malformed payload - all of which the source collapses into the
  same per-field default through its `try/except` blocks.
* Python `round(x, n)` (round half to even at `n` decimal places) is
  modelled exactly on rationals by `pyRound`.
* `datetime.now()` inside `calculate_activity_score` is surfaced as an
  explicit `now : ℤ` parameter: it is the single hidden environment input
  of the scoring functions.
-/

/-- Round half to even to the nearest integer, Python's rounding mode. -/
def roundHalfEven (x : ℚ) : ℤ :=
  let f := ⌊x⌋
  if x - f < 1/2 then f
  else if 1/2 < x - f then f + 1
  else if 2 ∣ f then f else f + 1

/-- Python `round(x, n)`: round half to even at `n` decimal places. -/
def pyRound (x : ℚ) (n : ℕ) : ℚ :=
  (roundHalfEven (x * 10 ^ n) : ℚ) / 10 ^ n

/-- Python `w in s` substring test, on character lists. -/
def containsSub (s w : List Char) : Bool :=
  s.tails.any fun t => w.isPrefixOf t

/-- Python `w in s` substring test, on strings. -/
def strContainsSub (s w : String) : Bool :=
  containsSub s.toList w.toList

/-- Python `str.lower()` (ASCII case folding suffices for the inputs used). -/
def lowerStr (s : String) : String :=
  String.mk (s.toList.map Char.toLower)

/-- Result of `calculate_release_frequency` (`main.py:119-147`).  The dict
returned by the `< 2` early return at line 125 has no `total_releases` key,
which is modelled by `none`; callers read it with `.get('total_releases', 0)`
(modelled by `Option.getD 0`). -/
structure ReleaseFreqResult where
  release_frequency : ℚ
  releases_per_year : ℚ
  total_releases : Option ℕ
  deriving DecidableEq, Repr

/-- The comprehension at `main.py:122`: drop the sentinel keys. -/
def datedVersions (time_data : List (String × ℤ)) : List (String × ℤ) :=
  time_data.filter fun p => p.1 != "created" && p.1 != "modified"

/-- `calculate_release_frequency` (`main.py:119-147`).  Timestamps arrive
pre-parsed (see module comment), so the `except` branch at line 146-147 -
reachable only through malformed ISO strings - has no counterpart here. -/
def calculate_release_frequency (time_data : List (String × ℤ)) : ReleaseFreqResult :=
  let versions := datedVersions time_data
  if versions.length < 2 then
    { release_frequency := 0, releases_per_year := 0, total_releases := none }
  else
    let dates := List.insertionSort (· ≤ ·) (versions.map Prod.snd)
    if 1 < dates.length then
      let total_days := (dates.getLast?.getD 0 - dates.head?.getD 0).fdiv 86400
      let num_releases := dates.length - 1
      if 0 < total_days then
        let avg_days_between : ℚ := (total_days : ℚ) / (num_releases : ℚ)
        let releases_per_year : ℚ :=
          if 0 < avg_days_between then 365 / avg_days_between else 0
        { release_frequency := pyRound avg_days_between 1,
          releases_per_year := pyRound releases_per_year 2,
          total_releases := some versions.length }
      else
        { release_frequency := 0, releases_per_year := 0,
          total_releases := some versions.length }
    else
      { release_frequency := 0, releases_per_year := 0,
        total_releases := some versions.length }

/-- The stats dict assembled by `get_github_stats` (`main.py:149-270`). -/
structure GithubStats where
  stars : ℤ
  forks : ℤ
  watchers : ℤ
  open_issues : ℤ
  last_updated : String
  language : String
  size : ℤ
  has_wiki : Bool
  has_pages : Bool
  last_commit_date : Option ℤ
  open_pull_requests : ℤ
  contributors_count : ℤ
  has_ci : Bool
  ci_workflows_count : ℤ
  has_tests : Bool
  deriving DecidableEq, Repr

/-- Recent-commit band of `calculate_activity_score` (`main.py:315-326`),
worth up to 30 points.  `now` is the value of `datetime.now()`;
`days_since` is `(now - last_commit).days`, i.e. floor division of the
second difference by 86400.  `none` covers the empty string and the
parse failure swallowed by the inner `except: pass`. -/
def commitPoints (last_commit_date : Option ℤ) (now : ℤ) : ℤ :=
  match last_commit_date with
  | none => 0
  | some t =>
    let days_since := (now - t).fdiv 86400
    if days_since < 90 then 30
    else if days_since < 180 then 20
    else if days_since < 365 then 10
    else 0

/-- Contributor band of `calculate_activity_score` (`main.py:328-337`). -/
def contributorPoints (contributors : ℤ) : ℤ :=
  if 50 < contributors then 20
  else if 20 < contributors then 15
  else if 10 < contributors then 10
  else if 5 < contributors then 5
  else 0

/-- Open-pull-request band of `calculate_activity_score` (`main.py:339-346`). -/
def prPoints (prs : ℤ) : ℤ :=
  if 20 < prs then 15
  else if 10 < prs then 10
  else if 5 < prs then 5
  else 0

/-- Release-frequency band of `calculate_activity_score` (`main.py:348-357`). -/
def releasePoints (releases_per_year : ℚ) : ℤ :=
  if 12 < releases_per_year then 20
  else if 6 < releases_per_year then 15
  else if 3 < releases_per_year then 10
  else if 1 < releases_per_year then 5
  else 0

/-- Star band of `calculate_activity_score` (`main.py:359-370`). -/
def starPoints (stars : ℤ) : ℤ :=
  if 10000 < stars then 15
  else if 5000 < stars then 12
  else if 1000 < stars then 9
  else if 500 < stars then 6
  else if 100 < stars then 3
  else 0

/-- `calculate_activity_score` (`main.py:307-372`).  The call to
`datetime.now()` at line 318 is surfaced as the explicit parameter `now`. -/
def calculate_activity_score (github_stats : Option GithubStats)
    (release_frequency : ReleaseFreqResult) (now : ℤ) : ℤ :=
  match github_stats with
  | none => 0
  | some gh =>
    let score := commitPoints gh.last_commit_date now
      + contributorPoints gh.contributors_count
      + prPoints gh.open_pull_requests
      + releasePoints release_frequency.releases_per_year
      + starPoints gh.stars
    min 100 score

/-- Version-level metadata (`versions[latest]` in `main.py:529-531`), the
`package_data` argument of `assess_documentation_quality` and
`categorize_framework`.  `dependencies` / `dev_dependencies` model
`len(version_data.get(..., {}))`. -/
structure VersionData where
  name : String
  description : String
  readme : String
  homepage : String
  keywords : List String
  license : String
  dependencies : ℕ
  dev_dependencies : ℕ
  deriving DecidableEq, Repr

/-- The `versions.get(latest_version, {})` default at `main.py:531`. -/
def emptyVersionData : VersionData :=
  { name := "", description := "", readme := "", homepage := "",
    keywords := [], license := "", dependencies := 0, dev_dependencies := 0 }

/-- README contribution of `assess_documentation_quality` (`main.py:280-287`). -/
def readmeScore (readme : String) : ℚ :=
  if readme ≠ "" then
    1 + (if 500 < readme.length then 1 else 0)
      + (if 2000 < readme.length then 1 else 0)
  else 0

/-- `assess_documentation_quality` (`main.py:276-305`). -/
def assess_documentation_quality (repo_data : Option GithubStats)
    (package_data : VersionData) : ℚ :=
  let score := readmeScore package_data.readme
    + (if package_data.homepage ≠ "" then 1/2 else 0)
    + (if (repo_data.map GithubStats.has_wiki).getD false then 1/2 else 0)
    + (if (repo_data.map GithubStats.has_pages).getD false then 1/2 else 0)
    + (if package_data.keywords ≠ [] ∧ 3 < package_data.keywords.length then 1/2 else 0)
  min 5 (pyRound score 1)

/-- The twelve category rules of `categorize_framework` (`main.py:385-419`),
in declaration order. -/
def categoryRules : List (String × List String) :=
  [("Web Framework", ["web framework", "http server", "web server", "express", "web application"]),
   ("API Framework", ["api", "rest", "restful", "graphql", "api framework"]),
   ("Real-time", ["realtime", "websocket", "socket", "real-time", "ws"]),
   ("Full-stack", ["fullstack", "full-stack", "isomorphic", "universal", "ssr", "server-side rendering"]),
   ("Microservices", ["microservice", "micro-service", "microservices", "distributed"]),
   ("Testing", ["test", "testing", "mocha", "jest", "chai", "jasmine", "unit test"]),
   ("Build Tool", ["build", "bundler", "webpack", "compiler", "rollup", "vite", "build tool"]),
   ("Database/ORM", ["orm", "database", "mongodb", "mysql", "postgres", "sequelize", "typeorm"]),
   ("Authentication", ["auth", "authentication", "passport", "jwt", "oauth"]),
   ("Logging", ["log", "logging", "winston", "morgan", "logger"]),
   ("Utility", ["utility", "helper", "utils", "tool"]),
   ("CLI", ["cli", "command line", "terminal", "commander"])]

/-- `categorize_framework` (`main.py:374-421`). -/
def categorize_framework (package_data : VersionData) : List String :=
  let description := lowerStr package_data.description
  let keywords_str :=
    if package_data.keywords.isEmpty then ""
    else lowerStr (String.intercalate " " package_data.keywords)
  let name := lowerStr package_data.name
  let combined_text := description ++ " " ++ keywords_str ++ " " ++ name
  let categories := categoryRules.filterMap fun rule =>
    if rule.2.any (fun word => strContainsSub combined_text word) then some rule.1
    else none
  if categories.isEmpty then ["Other"] else categories

/-- Python `str.replace(pat, rep)` on character lists: replace every
non-overlapping occurrence, left to right.  The first argument is fuel
(the caller passes the list length, which suffices). -/
def replaceSubAux : ℕ → List Char → List Char → List Char → List Char
  | 0, s, _, _ => s
  | _ + 1, [], _, _ => []
  | fuel + 1, c :: s, pat, rep =>
    if pat ≠ [] ∧ pat.isPrefixOf (c :: s) then
      rep ++ replaceSubAux fuel ((c :: s).drop pat.length) pat rep
    else c :: replaceSubAux fuel s pat rep

/-- Python `str.replace(pat, rep)` on strings. -/
def replaceSub (s pat rep : String) : String :=
  String.mk (replaceSubAux s.toList.length s.toList pat.toList rep.toList)

/-- Python `str.split(sep)` for a single-character separator
(`''.split('/') == ['']`, `'a/b'.split('/') == ['a','b']`). -/
def splitOnChar (sep : Char) : List Char → List (List Char)
  | [] => [[]]
  | c :: rest =>
    let r := splitOnChar sep rest
    if c = sep then [] :: r
    else
      match r with
      | h :: t => (c :: h) :: t
      | [] => [[c]]

/-- Maximal run of leading decimal digits of a character list, together
with the remainder (the greedy `\d+` of the pagination regex). -/
def leadingDigits : List Char → List Char × List Char
  | [] => ([], [])
  | c :: rest =>
    if c.isDigit then
      let p := leadingDigits rest
      (c :: p.1, p.2)
    else ([], c :: rest)

/-- Decimal value of a digit list (`int(match.group(1))`). -/
def digitsToNat (ds : List Char) : ℕ :=
  ds.foldl (fun acc c => acc * 10 + (c.toNat - 48)) 0

/-- Try to match the regex `page=(\d+)>; rel="last"` at the head of the
list.  Greedy `\d+` followed by the non-digit `>` is equivalent to taking
the maximal digit run and then requiring the literal tail. -/
def parseHintAt (l : List Char) : Option ℕ :=
  if "page=".toList.isPrefixOf l then
    let rest := l.drop 5
    let p := leadingDigits rest
    if p.1 ≠ [] ∧ ">; rel=\"last\"".toList.isPrefixOf p.2 then
      some (digitsToNat p.1)
    else none
  else none

/-- `re.search(r'page=(\d+)>; rel="last"', link_header)` (`main.py:223`):
the leftmost match of the pagination pattern, if any. -/
def findLastPageHint (link_header : String) : Option ℕ :=
  link_header.toList.tails.findSome? parseHintAt

/-- The fields read off the primary repository response (`main.py:174-184`);
the `.get(..., default)` defaults are folded into the field types. -/
structure RepoData where
  stargazers_count : ℤ
  forks_count : ℤ
  watchers_count : ℤ
  open_issues_count : ℤ
  updated_at : String
  language : String
  size : ℤ
  has_wiki : Bool
  has_pages : Bool
  deriving DecidableEq, Repr

/-- The contributors response (`main.py:215-234`): its `Link` header and
the number of items in the returned page (`len(contributors_response.json())`).
The request is issued with `per_page=1`. -/
structure ContribResp where
  link : String
  items : ℕ
  deriving DecidableEq, Repr

/-- One entry of the top-level contents listing (`main.py:252-268`). -/
structure ContentItem where
  name : String
  type : String
  deriving DecidableEq, Repr

/-- The network responses consumed by one `get_github_stats` call.  For
each request, `none` models a non-success status, timeout, transport error
or malformed payload (all collapsed to the same default by the source's
`try/except` blocks); `some` carries the successful payload:
commit dates (newest first), the open-PR page item count
(`len(prs_response.json())`), the contributors page, the workflow
`total_count`, and the top-level content listing. -/
structure GhEnv where
  repoResp : Option RepoData
  commitsResp : Option (List ℤ)
  prsResp : Option ℕ
  contribResp : Option ContribResp
  workflowsResp : Option ℕ
  contentsResp : Option (List ContentItem)

/-- The commit block (`main.py:186-200`): the empty string (modelled as
`none`) on failure or an empty commit list, else the first commit's date. -/
def lastCommitDateOf : Option (List ℤ) → Option ℤ
  | none => none
  | some [] => none
  | some (d :: _) => some d

/-- The pull-request block (`main.py:202-212`). -/
def openPRsOf : Option ℕ → ℤ
  | none => 0
  | some n => (n : ℤ)

/-- The contributors block (`main.py:214-234`): prefer the last-page number
parsed from the `Link` header; fall back to the page's item count when the
header lacks `'last'` or the regex does not match; `0` on request failure. -/
def contributorsCountOf : Option ContribResp → ℤ
  | none => 0
  | some c =>
    if strContainsSub c.link "last" then
      match findLastPageHint c.link with
      | some p => (p : ℤ)
      | none => (c.items : ℤ)
    else (c.items : ℤ)

/-- The CI block (`main.py:236-250`): `(has_ci, ci_workflows_count)`. -/
def ciOf : Option ℕ → Bool × ℤ
  | none => (false, 0)
  | some total => (decide (0 < total), (total : ℤ))

/-- The directory names counted as test indicators (`main.py:258`). -/
def testIndicators : List String :=
  ["test", "tests", "__tests__", "spec", "specs"]

/-- The test-directory block (`main.py:252-268`). -/
def hasTestsOf : Option (List ContentItem) → Bool
  | none => false
  | some contents =>
    contents.any fun item =>
      item.type == "dir" &&
        (testIndicators.contains (lowerStr item.name)
          || strContainsSub (lowerStr item.name) "test")

/-- `get_github_stats` (`main.py:149-270`).  The URL guard, prefix/suffix
stripping and owner/name split follow lines 151-158; once the primary
request succeeds every secondary block contributes exactly one field
(pair), independently of the others. -/
def get_github_stats (repo_url : String) (env : GhEnv) : Option GithubStats :=
  if repo_url = "" ∨ ¬ strContainsSub repo_url "github.com" then none
  else
    let parts := splitOnChar '/'
      (replaceSub (replaceSub (replaceSub repo_url
        "https://github.com/" "") "git://github.com/" "") ".git" "").toList
    if 2 ≤ parts.length then
      match env.repoResp with
      | none => none
      | some repo_data =>
        some { stars := repo_data.stargazers_count,
               forks := repo_data.forks_count,
               watchers := repo_data.watchers_count,
               open_issues := repo_data.open_issues_count,
               last_updated := repo_data.updated_at,
               language := repo_data.language,
               size := repo_data.size,
               has_wiki := repo_data.has_wiki,
               has_pages := repo_data.has_pages,
               last_commit_date := lastCommitDateOf env.commitsResp,
               open_pull_requests := openPRsOf env.prsResp,
               contributors_count := contributorsCountOf env.contribResp,
               has_ci := (ciOf env.workflowsResp).1,
               ci_workflows_count := (ciOf env.workflowsResp).2,
               has_tests := hasTestsOf env.contentsResp }
    else none

/-- A search-result payload (`pkg_obj.get('package', {})`, `main.py:458`),
with the fields the orchestrator reads from it. -/
structure Pkg where
  name : String
  description : String
  keywords : List String
  links_homepage : String
  links_npm : String
  deriving DecidableEq, Repr

/-- The variant shape of `details['author']` (`main.py:543-549`): a dict
(whose `name` is read with default `''`), a plain string, or some other
type (including `None`), which yields `''`.  An absent key gives the
default `{}` dict, i.e. `adict ""`. -/
inductive AuthorShape
  | adict (name : String)
  | astr (s : String)
  | aother
  deriving DecidableEq, Repr

/-- The variant shape of `details['repository']` (`main.py:500-506`):
absent key, a dict (whose `url` is read with default `''`), a plain
string, or some other type, which leaves `repo_url` as `None`. -/
inductive RepoShape
  | rnone
  | rdict (url : String)
  | rstr (s : String)
  | rother
  deriving DecidableEq, Repr

/-- The npm detail document (`get_package_details` response) with the
fields `collect_frameworks` reads.  `latest` is
`details.get('dist-tags', {}).get('latest', '')`; `maintainers` models
`len(details.get('maintainers', []))`. -/
structure PackageDetail where
  time : List (String × ℤ)
  latest : String
  versions : List (String × VersionData)
  author : AuthorShape
  repository : RepoShape
  maintainers : ℕ
  deriving DecidableEq, Repr

/-- `main.py:499-506`: resolve the repository URL from the variant shape. -/
def resolveRepoUrl : RepoShape → Option String
  | .rnone => none
  | .rdict url => some url
  | .rstr s => some s
  | .rother => none

/-- Result of `get_package_size` (`main.py:103-117`). -/
structure SizeInfo where
  package_size_kb : ℚ
  gzip_size_kb : ℚ
  deriving DecidableEq, Repr

/-- `get_package_size` (`main.py:103-117`): the response carries the
`size` and `gzip` byte counts; any failure yields the zero default. -/
def get_package_size (resp : Option (ℤ × ℤ)) : SizeInfo :=
  match resp with
  | some p =>
    { package_size_kb := pyRound ((p.1 : ℚ) / 1024) 2,
      gzip_size_kb := pyRound ((p.2 : ℚ) / 1024) 2 }
  | none => { package_size_kb := 0, gzip_size_kb := 0 }

/-- Result of `get_npm_audit_info` (`main.py:84-101`). -/
structure AuditInfo where
  vulnerabilities : ℕ
  has_vulnerabilities : Bool
  deriving DecidableEq, Repr

/-- `get_npm_audit_info` (`main.py:84-101`): a permanent placeholder. -/
def get_npm_audit_info (package_name : String) : AuditInfo :=
  { vulnerabilities := 0, has_vulnerabilities := false }

/-- The normalized record assembled at `main.py:554-615`, one field per
dict key, in source order. -/
structure Record where
  name : String
  version : String
  description : String
  author : String
  license : String
  keywords : String
  categories : String
  downloads_last_month : ℕ
  github_stars : ℤ
  github_forks : ℤ
  github_watchers : ℤ
  vulnerabilities : ℕ
  has_vulnerabilities : Bool
  package_size_kb : ℚ
  gzip_size_kb : ℚ
  release_frequency_days : ℚ
  releases_per_year : ℚ
  total_releases : ℕ
  has_tests : Bool
  has_ci : Bool
  ci_workflows_count : ℤ
  documentation_score : ℚ
  has_wiki : Bool
  has_pages : Bool
  last_commit_date : Option ℤ
  last_updated : String
  github_open_issues : ℤ
  open_pull_requests : ℤ
  contributors_count : ℤ
  activity_score : ℤ
  repository : Option String
  homepage : String
  npm_url : String
  created_date : Option ℤ
  modified_date : Option ℤ
  github_language : String
  maintainers : ℕ
  dependencies : ℕ
  dev_dependencies : ℕ
  deriving DecidableEq, Repr

/-- The external world one collection run interacts with: per-identifier
npm detail documents (`none` models `get_package_details` returning
`None`), download counts, per-repository-URL platform responses,
bundlephobia responses, and the wall clock read by
`calculate_activity_score`. -/
structure ProcEnv where
  details : String → Option PackageDetail
  downloads : String → ℕ
  gh : String → GhEnv
  sizeResp : String → Option (ℤ × ℤ)
  now : ℤ

/-- The body of the per-candidate `try` block of `collect_frameworks`
(`main.py:488-615`), given a successfully fetched detail document:
assemble the normalized record. -/
def buildRecord (env : ProcEnv) (pkg : Pkg) (details : PackageDetail) : Record :=
  let downloads := env.downloads pkg.name
  let repo_url := resolveRepoUrl details.repository
  let github_stats : Option GithubStats :=
    match repo_url with
    | some url => if url ≠ "" then get_github_stats url (env.gh url) else none
    | none => none
  let size_info := get_package_size (env.sizeResp pkg.name)
  let release_freq := calculate_release_frequency details.time
  let version_data := (details.versions.lookup details.latest).getD emptyVersionData
  let categories := categorize_framework version_data
  let doc_score := assess_documentation_quality github_stats version_data
  let activity_score := calculate_activity_score github_stats release_freq env.now
  let author_name :=
    match details.author with
    | .adict n => n
    | .astr s => s
    | .aother => ""
  let audit_info := get_npm_audit_info pkg.name
  { name := pkg.name,
    version := details.latest,
    description := pkg.description.take 500,
    author := author_name,
    license := version_data.license,
    keywords := String.intercalate ", " (pkg.keywords.take 10),
    categories := String.intercalate ", " categories,
    downloads_last_month := downloads,
    github_stars := (github_stats.map GithubStats.stars).getD 0,
    github_forks := (github_stats.map GithubStats.forks).getD 0,
    github_watchers := (github_stats.map GithubStats.watchers).getD 0,
    vulnerabilities := audit_info.vulnerabilities,
    has_vulnerabilities := audit_info.has_vulnerabilities,
    package_size_kb := size_info.package_size_kb,
    gzip_size_kb := size_info.gzip_size_kb,
    release_frequency_days := release_freq.release_frequency,
    releases_per_year := release_freq.releases_per_year,
    total_releases := release_freq.total_releases.getD 0,
    has_tests := (github_stats.map GithubStats.has_tests).getD false,
    has_ci := (github_stats.map GithubStats.has_ci).getD false,
    ci_workflows_count := (github_stats.map GithubStats.ci_workflows_count).getD 0,
    documentation_score := doc_score,
    has_wiki := (github_stats.map GithubStats.has_wiki).getD false,
    has_pages := (github_stats.map GithubStats.has_pages).getD false,
    last_commit_date := (github_stats.map GithubStats.last_commit_date).getD none,
    last_updated := (github_stats.map GithubStats.last_updated).getD "",
    github_open_issues := (github_stats.map GithubStats.open_issues).getD 0,
    open_pull_requests := (github_stats.map GithubStats.open_pull_requests).getD 0,
    contributors_count := (github_stats.map GithubStats.contributors_count).getD 0,
    activity_score := activity_score,
    repository := repo_url,
    homepage := pkg.links_homepage,
    npm_url := pkg.links_npm,
    created_date := details.time.lookup "created",
    modified_date := details.time.lookup "modified",
    github_language := (github_stats.map GithubStats.language).getD "",
    maintainers := details.maintainers,
    dependencies := version_data.dependencies,
    dev_dependencies := version_data.dev_dependencies }

/-- The PROCESSING loop of `collect_frameworks` (`main.py:479-625`):
iterate the candidates; skip an identifier already in
`self.processed_names`; otherwise mark it processed and either skip it
(detail fetch failed, `main.py:491-493`) or append its record.  Any
residual exception inside the `try` block is caught at the candidate
boundary (`main.py:623-625`); in this typed model the body after a
successful detail fetch is total, so that branch adds no records either
way. -/
def collect_frameworks_processing (env : ProcEnv) :
    List Pkg → List String → List Record
  | [], _ => []
  | pkg :: rest, processed =>
    if pkg.name ∈ processed then collect_frameworks_processing env rest processed
    else
      match env.details pkg.name with
      | none => collect_frameworks_processing env rest (pkg.name :: processed)
      | some d =>
        buildRecord env pkg d ::
          collect_frameworks_processing env rest (pkg.name :: processed)

/-- The inner merge of one search response into the seeding state
(`main.py:456-464`): `(seen_names, all_packages)`, first seen wins,
unnamed payloads dropped. -/
def mergeSeedStep (st : List String × List Pkg) (packages : List Pkg) :
    List String × List Pkg :=
  packages.foldl
    (fun st pkg =>
      if pkg.name ≠ "" ∧ pkg.name ∉ st.1 then (pkg.name :: st.1, st.2 ++ [pkg])
      else st)
    st

/-- The SEEDING loop of `collect_frameworks` (`main.py:449-471`): one
search response per seed term, merged through the seen-set, with the
early break once `len(all_packages) >= min_count * 1.5`. -/
def collect_frameworks_seeding :
    List (List Pkg) → List String → List Pkg → ℕ → List Pkg
  | [], _, all_packages, _ => all_packages
  | response :: rest, seen_names, all_packages, min_count =>
    let st := mergeSeedStep (seen_names, all_packages) response
    if min_count * 3 ≤ st.2.length * 2 then st.2
    else collect_frameworks_seeding rest st.1 st.2 min_count

/-- A repository-stats value matching the C3 scenario: 12000 stars,
60 contributors, 25 open pull requests, last commit at epoch second 0. -/
def ghStatsC3 : GithubStats :=
  { stars := 12000, forks := 300, watchers := 12000, open_issues := 40,
    last_updated := "", language := "JavaScript", size := 1000,
    has_wiki := true, has_pages := false, last_commit_date := some 0,
    open_pull_requests := 25, contributors_count := 60,
    has_ci := true, ci_workflows_count := 2, has_tests := true }

/-- A release-frequency value with 15 releases per year. -/
def rfC3 : ReleaseFreqResult :=
  { release_frequency := 24.3, releases_per_year := 15, total_releases := some 20 }

/-- A repository-stats value whose last commit is at epoch second 0 and
whose other activity inputs are all zero. -/
def ghStatsClock : GithubStats :=
  { stars := 0, forks := 0, watchers := 0, open_issues := 0,
    last_updated := "", language := "", size := 0,
    has_wiki := false, has_pages := false, last_commit_date := some 0,
    open_pull_requests := 0, contributors_count := 0,
    has_ci := false, ci_workflows_count := 0, has_tests := false }

/-- A repository-stats value with no last-commit date and zero counters. -/
def ghStatsNoCommit : GithubStats :=
  { stars := 0, forks := 0, watchers := 0, open_issues := 0,
    last_updated := "", language := "", size := 0,
    has_wiki := false, has_pages := false, last_commit_date := none,
    open_pull_requests := 0, contributors_count := 0,
    has_ci := false, ci_workflows_count := 0, has_tests := false }

/-- The zero release-frequency default. -/
def rfZero : ReleaseFreqResult :=
  { release_frequency := 0, releases_per_year := 0, total_releases := none }

/-- Claim C1, counterexample: for the version-timestamp map with the single
dated version `"1.0.0"`, `calculate_release_frequency` does not return a
result with `total_releases = 1`; the early return at `main.py:125` carries
no `total_releases` key at all. -/
theorem C1_counterexample :
    (calculate_release_frequency [("1.0.0", 0)]).total_releases ≠ some 1 := by
  decide

/-- Claim C1, amended: for every version-timestamp map with exactly one
dated version (after excluding the sentinel keys), the release-frequency
computation returns the zero-valued default with no `total_releases` entry
(so the record-level `.get('total_releases', 0)` reports 0, not 1). -/
theorem C1_single_version_zero_default (time_data : List (String × ℤ))
    (h : (datedVersions time_data).length = 1) :
    calculate_release_frequency time_data
      = { release_frequency := 0, releases_per_year := 0, total_releases := none } := by
  unfold calculate_release_frequency
  rw [if_pos]
  omega

/-- Witness for `C1_single_version_zero_default` at the concrete map
`[("created", 3), ("2.0.0", 7)]`. -/
theorem C1_witness :
    (datedVersions [("created", 3), ("2.0.0", 7)]).length = 1 ∧
      calculate_release_frequency [("created", 3), ("2.0.0", 7)]
        = { release_frequency := 0, releases_per_year := 0, total_releases := none } :=
  ⟨by decide, C1_single_version_zero_default [("created", 3), ("2.0.0", 7)] (by decide)⟩

/-- Claim C2, counterexample: `calculate_activity_score` reads the wall
clock (`datetime.now()`, `main.py:318`), surfaced here as its `now`
argument.  With identical stats and release-frequency inputs, invoking it
at epoch second 0 and at epoch second 34560000 (400 days later) yields 30
and 0 respectively, so invocations at different times do not yield
identical output. -/
theorem C2_counterexample :
    calculate_activity_score (some ghStatsClock) rfZero 0
      ≠ calculate_activity_score (some ghStatsClock) rfZero 34560000 := by
  decide

/-- Claim C2, amended: every MetricsEngine scoring function is a pure
function of its explicit inputs, where for the activity score the current
wall-clock time is one of those inputs (the code reads `datetime.now()`);
the clock enters only through the last-commit recency band, so with absent
repository stats, or with no last-commit date, the activity score is
identical across invocation times. -/
theorem C2_deterministic_given_clock :
    (∀ (rf : ReleaseFreqResult) (t t' : ℤ),
        calculate_activity_score none rf t = calculate_activity_score none rf t')
    ∧ ∀ (gh : GithubStats) (rf : ReleaseFreqResult) (t t' : ℤ),
        gh.last_commit_date = none →
          calculate_activity_score (some gh) rf t
            = calculate_activity_score (some gh) rf t' := by
  constructor
  · intro rf t t'
    rfl
  · intro gh rf t t' h
    simp only [calculate_activity_score, commitPoints, h]

/-- Witness for `C2_deterministic_given_clock` at concrete inputs. -/
theorem C2_witness :
    calculate_activity_score (some ghStatsNoCommit) rfZero 0
      = calculate_activity_score (some ghStatsNoCommit) rfZero 86400000 :=
  C2_deterministic_given_clock.2 ghStatsNoCommit rfZero 0 86400000 rfl

/-- Claim C3: with stars = 12000, contributors = 60, open pull requests =
25, releases_per_year = 15 and a last commit 10 days before `now`, the
activity score is exactly 100: the bands contribute 30+20+15+20+15 and the
`min 100` cap does not truncate. -/
theorem C3_activity_score_exactly_100 :
    calculate_activity_score (some ghStatsC3) rfC3 864000 = 100
      ∧ commitPoints ghStatsC3.last_commit_date 864000 = 30
      ∧ contributorPoints ghStatsC3.contributors_count = 20
      ∧ prPoints ghStatsC3.open_pull_requests = 15
      ∧ releasePoints rfC3.releases_per_year = 20
      ∧ starPoints ghStatsC3.stars = 15 := by
  refine ⟨?_, ?_, ?_, ?_, ?_, ?_⟩ <;> decide

/-- The package data of the C5 scenario: only the description is set. -/
def pkgDataC5 : VersionData :=
  { name := "", description := "A fast REST API framework with websocket support",
    readme := "", homepage := "", keywords := [], license := "",
    dependencies := 0, dev_dependencies := 0 }

/-- Claim C5: the package described as
"A fast REST API framework with websocket support" receives exactly the
tags `["API Framework", "Real-time"]` (both present, in rule-declaration
order), and a package matching no rule set receives exactly `["Other"]`. -/
theorem C5_categorization :
    categorize_framework pkgDataC5 = ["API Framework", "Real-time"]
      ∧ "API Framework" ∈ categorize_framework pkgDataC5
      ∧ "Real-time" ∈ categorize_framework pkgDataC5
      ∧ categorize_framework emptyVersionData = ["Other"] := by
  refine ⟨?_, ?_, ?_, ?_⟩ <;> decide

theorem roundHalfEven_nonneg {x : ℚ} (hx : 0 ≤ x) : 0 ≤ roundHalfEven x := by
  have hf : (0 : ℤ) ≤ ⌊x⌋ := Int.floor_nonneg.mpr hx
  simp only [roundHalfEven]
  split_ifs <;> omega

theorem pyRound_nonneg {x : ℚ} (n : ℕ) (hx : 0 ≤ x) : 0 ≤ pyRound x n := by
  unfold pyRound
  apply div_nonneg
  · exact_mod_cast roundHalfEven_nonneg (by positivity)
  · positivity

theorem readmeScore_bounds (readme : String) :
    0 ≤ readmeScore readme ∧ readmeScore readme ≤ 3 := by
  unfold readmeScore
  split_ifs <;> norm_num

theorem commitPoints_bounds (lc : Option ℤ) (now : ℤ) :
    0 ≤ commitPoints lc now ∧ commitPoints lc now ≤ 30 := by
  cases lc with
  | none => exact ⟨le_refl 0, show (0:ℤ) ≤ 30 by norm_num⟩
  | some t =>
    simp only [commitPoints]
    split_ifs <;> omega

theorem contributorPoints_bounds (c : ℤ) :
    0 ≤ contributorPoints c ∧ contributorPoints c ≤ 20 := by
  unfold contributorPoints
  split_ifs <;> omega

theorem prPoints_bounds (p : ℤ) : 0 ≤ prPoints p ∧ prPoints p ≤ 15 := by
  unfold prPoints
  split_ifs <;> omega

theorem releasePoints_bounds (r : ℚ) :
    0 ≤ releasePoints r ∧ releasePoints r ≤ 20 := by
  unfold releasePoints
  split_ifs <;> omega

theorem starPoints_bounds (s : ℤ) : 0 ≤ starPoints s ∧ starPoints s ≤ 15 := by
  unfold starPoints
  split_ifs <;> omega

/-- Claim C4: the documentation score always lies in [0, 5], the activity
score always lies in [0, 100], and the activity score is 0 whenever the
repository stats are entirely absent. -/
theorem C4_score_bounds :
    (∀ (repo_data : Option GithubStats) (package_data : VersionData),
        0 ≤ assess_documentation_quality repo_data package_data
          ∧ assess_documentation_quality repo_data package_data ≤ 5)
    ∧ (∀ (gh : Option GithubStats) (rf : ReleaseFreqResult) (now : ℤ),
        0 ≤ calculate_activity_score gh rf now
          ∧ calculate_activity_score gh rf now ≤ 100)
    ∧ ∀ (rf : ReleaseFreqResult) (now : ℤ),
        calculate_activity_score none rf now = 0 := by
  refine ⟨?_, ?_, fun rf now => rfl⟩
  · intro repo_data package_data
    unfold assess_documentation_quality
    constructor
    · refine le_min (by norm_num) (pyRound_nonneg 1 ?_)
      have h1 := (readmeScore_bounds package_data.readme).1
      have h2 : (0:ℚ) ≤ if package_data.homepage ≠ "" then 1/2 else 0 := by
        split_ifs <;> norm_num
      have h3 : (0:ℚ) ≤ if (repo_data.map GithubStats.has_wiki).getD false then 1/2 else 0 := by
        split_ifs <;> norm_num
      have h4 : (0:ℚ) ≤ if (repo_data.map GithubStats.has_pages).getD false then 1/2 else 0 := by
        split_ifs <;> norm_num
      have h5 : (0:ℚ) ≤
          if package_data.keywords ≠ [] ∧ 3 < package_data.keywords.length then 1/2 else 0 := by
        split_ifs <;> norm_num
      linarith
    · exact min_le_left 5 _
  · intro gh rf now
    cases gh with
    | none => exact ⟨le_refl 0, show (0:ℤ) ≤ 100 by norm_num⟩
    | some g =>
      have h1 := commitPoints_bounds g.last_commit_date now
      have h2 := contributorPoints_bounds g.contributors_count
      have h3 := prPoints_bounds g.open_pull_requests
      have h4 := releasePoints_bounds rf.releases_per_year
      have h5 := starPoints_bounds g.stars
      simp only [calculate_activity_score]
      omega

theorem fdiv_day_nonpos {x : ℤ} (h : x < 86400) : x.fdiv 86400 ≤ 0 := by
  rw [Int.fdiv_eq_ediv _ (by norm_num)]
  omega

theorem headGetD_mem {l : List ℤ} (h : l ≠ []) : l.head?.getD 0 ∈ l := by
  cases l with
  | nil => exact absurd rfl h
  | cons a t => simp

theorem getLastGetD_mem {l : List ℤ} (h : l ≠ []) : l.getLast?.getD 0 ∈ l := by
  rw [List.getLast?_eq_getLast l h]
  exact List.getLast_mem h

/-- Claim C9: for every version-timestamp map with at least two dated
versions, all of whose timestamps lie less than one day apart (so the
elapsed `.days` between the earliest and latest is 0), the
release-frequency computation takes the non-dividing branch and returns
the zero-valued result with `total_releases` equal to the number of dated
versions. -/
theorem C9_sub_day_releases (time_data : List (String × ℤ))
    (h2 : 2 ≤ (datedVersions time_data).length)
    (hclose : ∀ a ∈ (datedVersions time_data).map Prod.snd,
        ∀ b ∈ (datedVersions time_data).map Prod.snd, a - b < 86400) :
    calculate_release_frequency time_data
      = { release_frequency := 0, releases_per_year := 0,
          total_releases := some (datedVersions time_data).length } := by
  have hlen2 :
      (List.insertionSort (· ≤ ·) ((datedVersions time_data).map Prod.snd)).length
        = (datedVersions time_data).length := by
    rw [List.length_insertionSort, List.length_map]
  have hne :
      List.insertionSort (· ≤ ·) ((datedVersions time_data).map Prod.snd) ≠ [] := by
    intro hnil
    rw [hnil] at hlen2
    simp only [List.length_nil] at hlen2
    omega
  have hmemh :
      (List.insertionSort (· ≤ ·) ((datedVersions time_data).map Prod.snd)).head?.getD 0
        ∈ (datedVersions time_data).map Prod.snd :=
    (List.mem_insertionSort (· ≤ ·)).mp (headGetD_mem hne)
  have hmeml :
      (List.insertionSort (· ≤ ·) ((datedVersions time_data).map Prod.snd)).getLast?.getD 0
        ∈ (datedVersions time_data).map Prod.snd :=
    (List.mem_insertionSort (· ≤ ·)).mp (getLastGetD_mem hne)
  have hfd := fdiv_day_nonpos (hclose _ hmeml _ hmemh)
  simp only [calculate_release_frequency]
  split_ifs with ha hb hc hd
  · omega
  · omega
  · omega
  · rfl
  · rfl

/-- Claim C8: the secondary requests of `get_github_stats` are
independently wrapped.  Replacing any single secondary response by a
failure changes only the field(s) that block owns, setting them to their
documented defaults - the empty last-commit date, 0 open pull requests,
0 contributors, `has_ci = False` with 0 workflows, `has_tests = False` -
and leaves every other field and the overall result untouched (in
particular, when the primary request fails or the URL does not parse,
both runs return `None` alike). -/
theorem C8_secondary_requests_independent (repo_url : String) (env : GhEnv) :
    get_github_stats repo_url { env with commitsResp := none }
        = Option.map (fun s => { s with last_commit_date := none })
            (get_github_stats repo_url env)
    ∧ get_github_stats repo_url { env with prsResp := none }
        = Option.map (fun s => { s with open_pull_requests := 0 })
            (get_github_stats repo_url env)
    ∧ get_github_stats repo_url { env with contribResp := none }
        = Option.map (fun s => { s with contributors_count := 0 })
            (get_github_stats repo_url env)
    ∧ get_github_stats repo_url { env with workflowsResp := none }
        = Option.map (fun s => { s with has_ci := false, ci_workflows_count := 0 })
            (get_github_stats repo_url env)
    ∧ get_github_stats repo_url { env with contentsResp := none }
        = Option.map (fun s => { s with has_tests := false })
            (get_github_stats repo_url env) := by
  obtain ⟨r, c, p, cb, w, ct⟩ := env
  refine ⟨?_, ?_, ?_, ?_, ?_⟩ <;>
    · simp only [get_github_stats]
      split_ifs <;> cases r <;> rfl

/-- Witness for `C9_sub_day_releases` at a concrete two-version map whose
releases are one hour apart. -/
theorem C9_witness :
    2 ≤ (datedVersions [("1.0.0", 0), ("1.1.0", 3600)]).length ∧
      calculate_release_frequency [("1.0.0", 0), ("1.1.0", 3600)]
        = { release_frequency := 0, releases_per_year := 0, total_releases := some 2 } :=
  ⟨by decide,
    C9_sub_day_releases [("1.0.0", 0), ("1.1.0", 3600)] (by decide) (by decide)⟩

theorem buildRecord_name (env : ProcEnv) (pkg : Pkg) (d : PackageDetail) :
    (buildRecord env pkg d).name = pkg.name := rfl

/-- Every record produced by the PROCESSING loop carries a name that was
not in the already-processed set the loop started from. -/
theorem processing_name_not_processed (env : ProcEnv) :
    ∀ (l : List Pkg) (processed : List String) (r : Record),
      r ∈ collect_frameworks_processing env l processed → r.name ∉ processed := by
  intro l
  induction l with
  | nil =>
    intro processed r hr
    simp [collect_frameworks_processing] at hr
  | cons pkg rest ih =>
    intro processed r hr
    by_cases hmem : pkg.name ∈ processed
    · rw [collect_frameworks_processing, if_pos hmem] at hr
      exact ih processed r hr
    · rw [collect_frameworks_processing, if_neg hmem] at hr
      cases hd : env.details pkg.name with
      | none =>
        rw [hd] at hr
        have := ih (pkg.name :: processed) r hr
        exact fun hc => this (List.mem_cons_of_mem _ hc)
      | some d =>
        rw [hd] at hr
        rcases List.mem_cons.mp hr with heq | htail
        · rw [heq, buildRecord_name]
          exact hmem
        · have := ih (pkg.name :: processed) r htail
          exact fun hc => this (List.mem_cons_of_mem _ hc)

/-- The names of the records produced by one PROCESSING run contain no
duplicates. -/
theorem processing_names_nodup (env : ProcEnv) :
    ∀ (l : List Pkg) (processed : List String),
      ((collect_frameworks_processing env l processed).map Record.name).Nodup := by
  intro l
  induction l with
  | nil =>
    intro processed
    simp [collect_frameworks_processing]
  | cons pkg rest ih =>
    intro processed
    by_cases hmem : pkg.name ∈ processed
    · rw [collect_frameworks_processing, if_pos hmem]
      exact ih processed
    · rw [collect_frameworks_processing, if_neg hmem]
      cases hd : env.details pkg.name with
      | none => exact ih (pkg.name :: processed)
      | some d =>
        simp only [List.map_cons, List.nodup_cons, buildRecord_name]
        refine ⟨?_, ih (pkg.name :: processed)⟩
        intro hc
        rcases List.mem_map.mp hc with ⟨r, hr, hname⟩
        have := processing_name_not_processed env rest (pkg.name :: processed) r hr
        exact this (hname ▸ List.mem_cons_self _ _)

/-- The seeding merge preserves the seen-set invariant: accumulated names
are duplicate-free and all registered in the seen-set. -/
theorem mergeSeedStep_inv :
    ∀ (packages : List Pkg) (st : List String × List Pkg),
      (st.2.map Pkg.name).Nodup → (∀ x ∈ st.2.map Pkg.name, x ∈ st.1) →
        ((mergeSeedStep st packages).2.map Pkg.name).Nodup
          ∧ ∀ x ∈ (mergeSeedStep st packages).2.map Pkg.name,
              x ∈ (mergeSeedStep st packages).1 := by
  intro packages
  induction packages with
  | nil =>
    intro st h1 h2
    exact ⟨h1, h2⟩
  | cons pkg ps ih =>
    intro st h1 h2
    rw [mergeSeedStep, List.foldl_cons]
    by_cases hc : pkg.name ≠ "" ∧ pkg.name ∉ st.1
    · rw [if_pos hc]
      refine ih (pkg.name :: st.1, st.2 ++ [pkg]) ?_ ?_
      · simp only [List.map_append, List.map_cons, List.map_nil, List.nodup_append]
        refine ⟨h1, List.nodup_singleton _, ?_⟩
        intro x hx
        simp only [List.mem_singleton]
        intro hxeq
        exact hc.2 (hxeq ▸ h2 x hx)
      · intro x hx
        simp only [List.map_append, List.map_cons, List.map_nil,
          List.mem_append, List.mem_singleton] at hx
        rcases hx with hx | hx
        · exact List.mem_cons_of_mem _ (h2 x hx)
        · exact hx ▸ List.mem_cons_self _ _
    · rw [if_neg hc]
      exact ih st h1 h2

/-- The SEEDING loop keeps accumulated names duplicate-free. -/
theorem seeding_names_nodup :
    ∀ (responses : List (List Pkg)) (seen : List String) (acc : List Pkg) (mc : ℕ),
      (acc.map Pkg.name).Nodup → (∀ x ∈ acc.map Pkg.name, x ∈ seen) →
        ((collect_frameworks_seeding responses seen acc mc).map Pkg.name).Nodup := by
  intro responses
  induction responses with
  | nil =>
    intro seen acc mc h1 _
    exact h1
  | cons response rest ih =>
    intro seen acc mc h1 h2
    rw [collect_frameworks_seeding]
    have hinv := mergeSeedStep_inv response (seen, acc) h1 h2
    split_ifs
    · exact hinv.1
    · exact ih _ _ mc hinv.1 hinv.2

/-- First of two seed responses that both surface the identifier
`"alpha"`. -/
def alphaA : Pkg :=
  { name := "alpha", description := "from the first seed", keywords := [],
    links_homepage := "", links_npm := "" }

/-- Second seed response surfacing the same identifier `"alpha"`. -/
def alphaB : Pkg :=
  { name := "alpha", description := "from the second seed", keywords := [],
    links_homepage := "", links_npm := "" }

/-- Claim C6: record names are unique within one collection run.  During
SEEDING the merged candidate names are duplicate-free for every sequence
of seed responses (and in particular two seeds that both surface `"alpha"`
contribute exactly one candidate, the first-seen payload); during
PROCESSING a candidate whose identifier is already in the processed set is
skipped outright, and the accumulated records never repeat a name. -/
theorem C6_unique_names :
    (∀ (responses : List (List Pkg)) (min_count : ℕ),
        ((collect_frameworks_seeding responses [] [] min_count).map Pkg.name).Nodup)
    ∧ (∀ (env : ProcEnv) (pkg : Pkg) (rest : List Pkg) (processed : List String),
        collect_frameworks_processing env (pkg :: rest) (pkg.name :: processed)
          = collect_frameworks_processing env rest (pkg.name :: processed))
    ∧ (∀ (env : ProcEnv) (l : List Pkg) (processed : List String),
        ((collect_frameworks_processing env l processed).map Record.name).Nodup)
    ∧ collect_frameworks_seeding [[alphaA], [alphaB]] [] [] 1000 = [alphaA] := by
  refine ⟨?_, ?_, ?_, ?_⟩
  · intro responses min_count
    exact seeding_names_nodup responses [] [] min_count List.nodup_nil (by simp)
  · intro env pkg rest processed
    rw [collect_frameworks_processing, if_pos (List.mem_cons_self _ _)]
  · intro env l processed
    exact processing_names_nodup env l processed
  · decide

/-- Claim C7: per-candidate failure isolation in PROCESSING.  If the
detail fetch fails for candidate `n` (the failure is absorbed at that
candidate's boundary) but succeeds for the next candidate `m`, the run
continues: the output record list starts with `m`'s record - exactly the
record built from `m`'s own data, unaffected by `n`'s failure - followed
by the processing of the remaining candidates, and contains no record
named after `n`. -/
theorem C7_failure_isolation (env : ProcEnv) (n m : Pkg) (rest : List Pkg)
    (processed : List String)
    (hn : n.name ∉ processed) (hm : m.name ∉ processed) (hnm : m.name ≠ n.name)
    (hfail : env.details n.name = none)
    (d : PackageDetail) (hok : env.details m.name = some d) :
    collect_frameworks_processing env (n :: m :: rest) processed
        = buildRecord env m d
            :: collect_frameworks_processing env rest (m.name :: n.name :: processed)
    ∧ ∀ r ∈ collect_frameworks_processing env (n :: m :: rest) processed,
        r.name ≠ n.name := by
  have hm2 : m.name ∉ n.name :: processed := by
    intro hc
    rcases List.mem_cons.mp hc with h | h
    · exact hnm h
    · exact hm h
  have step1 :
      collect_frameworks_processing env (n :: m :: rest) processed
        = collect_frameworks_processing env (m :: rest) (n.name :: processed) := by
    rw [collect_frameworks_processing, if_neg hn, hfail]
  have step2 :
      collect_frameworks_processing env (m :: rest) (n.name :: processed)
        = buildRecord env m d
            :: collect_frameworks_processing env rest (m.name :: n.name :: processed) := by
    rw [collect_frameworks_processing, if_neg hm2, hok]
  refine ⟨step1.trans step2, ?_⟩
  intro r hr
  rw [step1, step2] at hr
  rcases List.mem_cons.mp hr with heq | htail
  · rw [heq, buildRecord_name]
    exact hnm
  · have := processing_name_not_processed env rest (m.name :: n.name :: processed) r htail
    intro hc
    exact this (hc ▸ List.mem_cons_of_mem _ (List.mem_cons_self _ _))

/-- An all-failing network response set for one repository URL. -/
def ghEnvEmpty : GhEnv :=
  { repoResp := none, commitsResp := none, prsResp := none,
    contribResp := none, workflowsResp := none, contentsResp := none }

/-- A minimal npm detail document. -/
def detailC7 : PackageDetail :=
  { time := [], latest := "", versions := [], author := .aother,
    repository := .rnone, maintainers := 0 }

/-- Candidate whose detail fetch fails in the C7 witness run. -/
def pkgFailC7 : Pkg :=
  { name := "gamma", description := "", keywords := [],
    links_homepage := "", links_npm := "" }

/-- Candidate whose detail fetch succeeds in the C7 witness run. -/
def pkgOkC7 : Pkg :=
  { name := "beta", description := "", keywords := [],
    links_homepage := "", links_npm := "" }

/-- The external world of the C7 witness run: only `"beta"` resolves. -/
def envC7 : ProcEnv :=
  { details := fun s => if s == "beta" then some detailC7 else none,
    downloads := fun _ => 0,
    gh := fun _ => ghEnvEmpty,
    sizeResp := fun _ => none,
    now := 0 }

/-- Witness for `C7_failure_isolation`: `"gamma"` fails, `"beta"`
succeeds, the output is exactly `"beta"`'s record. -/
theorem C7_witness :
    (collect_frameworks_processing envC7 [pkgFailC7, pkgOkC7] []
        = buildRecord envC7 pkgOkC7 detailC7
            :: collect_frameworks_processing envC7 [] ["beta", "gamma"])
    ∧ ∀ r ∈ collect_frameworks_processing envC7 [pkgFailC7, pkgOkC7] [],
        r.name ≠ "gamma" :=
  C7_failure_isolation envC7 pkgFailC7 pkgOkC7 [] []
    (by simp) (by simp) (by decide) rfl detailC7 rfl

/-- Claim C10: because the contributors request is issued with
`per_page=1`, when the response carries no parseable last-page pagination
hint (the `Link` header lacks `'last'`, or the `page=(\d+)>; rel="last"`
pattern does not match), the recorded `contributors_count` is the length
of that single-item page, hence at most 1. -/
theorem C10_contributors_fallback (env : GhEnv) (c : ContribResp)
    (hresp : env.contribResp = some c)
    (hnohint : strContainsSub c.link "last" = false ∨ findLastPageHint c.link = none)
    (hpage : c.items ≤ 1) :
    ∀ (repo_url : String) (s : GithubStats),
      get_github_stats repo_url env = some s →
        s.contributors_count = (c.items : ℤ) ∧ s.contributors_count ≤ 1 := by
  have hcc : contributorsCountOf env.contribResp = (c.items : ℤ) := by
    rw [hresp]
    simp only [contributorsCountOf]
    rcases hnohint with h | h
    · rw [if_neg (by simp [h])]
    · split_ifs with hlast
      · rw [h]
      · rfl
  intro repo_url s hs
  simp only [get_github_stats] at hs
  cases hrd : env.repoResp with
  | none =>
    rw [hrd] at hs
    split_ifs at hs
  | some rd =>
    rw [hrd] at hs
    split_ifs at hs with h1 h2
    have hfield : s.contributors_count = contributorsCountOf env.contribResp := by
      have heq := (Option.some.injEq _ _).mp hs
      rw [← heq]
    rw [hfield, hcc]
    constructor
    · rfl
    · exact_mod_cast hpage

/-- The primary repository payload of the C10 witness run. -/
def rdC10 : RepoData :=
  { stargazers_count := 0, forks_count := 0, watchers_count := 0,
    open_issues_count := 0, updated_at := "", language := "", size := 0,
    has_wiki := false, has_pages := false }

/-- The response set of the C10 witness run: the primary request succeeds
and the contributors page holds one item with an empty `Link` header. -/
def ghEnvC10 : GhEnv :=
  { repoResp := some rdC10, commitsResp := none, prsResp := none,
    contribResp := some { link := "", items := 1 },
    workflowsResp := none, contentsResp := none }

/-- The stats record `get_github_stats` produces in the C10 witness run. -/
def statsC10 : GithubStats :=
  { stars := 0, forks := 0, watchers := 0, open_issues := 0,
    last_updated := "", language := "", size := 0, has_wiki := false,
    has_pages := false, last_commit_date := none, open_pull_requests := 0,
    contributors_count := 1, has_ci := false, ci_workflows_count := 0,
    has_tests := false }

/-- Witness for `C10_contributors_fallback` at a concrete hintless
single-item contributors page. -/
theorem C10_witness :
    statsC10.contributors_count = ((1 : ℕ) : ℤ) ∧ statsC10.contributors_count ≤ 1 :=
  C10_contributors_fallback ghEnvC10 { link := "", items := 1 } rfl
    (Or.inl (by decide)) (by decide) "https://github.com/owner/repo" statsC10
    (by decide)
